import Mathlib

/-!
Verification of the BLSQ data-extraction pipelines
(`data_extraction_leyre`, `data_extraction_lionel`, `rita_iaso_exercise`)
against their natural-language specification.

The Python code is shallowly embedded: JSON scalars become `PyVal`,
pandas/polars dataframes become `DataFrame` (a column list plus rows of
cells), fallible operations return `Except`/`Option`, and the HTTP and
filesystem collaborators are passed in explicitly (a response value, a
`FileSys` state).
-/

set_option autoImplicit false

namespace Pipelines

/-- A Python scalar as it appears in JSON payloads and dataframe cells.
`PyVal.none` stands for Python `None` (and for a missing/NaN cell). -/
inductive PyVal where
  | str (s : String)
  | int (n : Int)
  | none
  deriving DecidableEq, Repr

/-- A JSON object / Python dict: an association list from field names to
scalars (keys unique, in insertion order). -/
abbrev Record : Type := List (String × PyVal)

/-- Python `d.get(k)`: the value at key `k`, or `None` when absent. -/
def recGet (r : Record) (k : String) : PyVal :=
  match r.find? (fun p => p.1 == k) with
  | Option.some p => p.2
  | Option.none => PyVal.none

/-- Python `str(v)` as used by f-string interpolation: `None` prints as
the four letters None. -/
def pyStr : PyVal → String
  | PyVal.str s => s
  | PyVal.int n => toString n
  | PyVal.none => "None"

/-- A dataframe: named columns and rows of cells, each row aligned with
the column list. -/
structure DataFrame where
  columns : List String
  rows : List (List PyVal)
  deriving DecidableEq, Repr

/-! ## data_extraction_leyre: period expansion (`get_periods`)

The source computes
`start = pd.to_datetime(start_date, format="%Y%m")` (day 1 of the month),
`end = pd.to_datetime(end_date, format="%Y%m") + pd.offsets.MonthEnd(0)`
(the last day of the end month), and
`pd.date_range(start, end, freq="ME").strftime("%Y%m").tolist()`
(every month-end timestamp between the two bounds, inclusive, formatted
back to YYYYMM). -/

def isLeap (y : Nat) : Bool :=
  (y % 4 == 0 && y % 100 != 0) || y % 400 == 0

def daysInMonth (y m : Nat) : Nat :=
  if m == 2 then (if isLeap y then 29 else 28)
  else if m == 4 || m == 6 || m == 9 || m == 11 then 30
  else 31

/-- A calendar date at month granularity plus a day-of-month, enough to
model the timestamps `get_periods` manipulates. -/
structure Date where
  year : Nat
  month : Nat
  day : Nat
  deriving DecidableEq, Repr

/-- The month index of a date: total months since year 0.  Two dates of
the same month share it; timestamp order is month index, then day. -/
def Date.midx (d : Date) : Nat := d.year * 12 + (d.month - 1)

/-- Timestamp order at month/day granularity. -/
def dateLE (a b : Date) : Bool :=
  decide (a.midx < b.midx ∨ (a.midx = b.midx ∧ a.day ≤ b.day))

/-- The month-end date of the month with index `i`. -/
def monthEndOfIdx (i : Nat) : Date :=
  ⟨i / 12, i % 12 + 1, daysInMonth (i / 12) (i % 12 + 1)⟩

/-- `pd.offsets.MonthEnd(0)` applied to a day-1 timestamp: roll forward
to the last day of the same month. -/
def monthEndRoll (d : Date) : Date :=
  ⟨d.year, d.month, daysInMonth d.year d.month⟩

/-- `pd.date_range(start, stop, freq="ME")`: every month-end timestamp
`t` with `start ≤ t ≤ stop`.  Candidate month-ends are generated for the
month indices from `start`'s month to `stop`'s month; a month-end of any
month outside that window violates one of the two bounds, so the
restriction loses nothing. -/
def dateRangeME (start stop : Date) : List Date :=
  ((List.range' start.midx (stop.midx + 1 - start.midx)).map monthEndOfIdx).filter
    (fun d => dateLE start d && dateLE d stop)

def digitsToNat (cs : List Char) : Nat :=
  cs.foldl (fun a c => a * 10 + (c.toNat - 48)) 0

/-- `pd.to_datetime(s, format="%Y%m")`, as a parser: four year digits
then two month digits, month between 01 and 12; `none` models the
exception pandas raises on anything else. -/
def parseYYYYMM (s : String) : Option (Nat × Nat) :=
  let cs := s.toList
  if cs.length = 6 ∧ cs.all Char.isDigit then
    let y := digitsToNat (cs.take 4)
    let m := digitsToNat (cs.drop 4)
    if 1 ≤ m ∧ m ≤ 12 then Option.some (y, m) else Option.none
  else Option.none

def padZeros (n : Nat) (s : String) : String :=
  String.mk (List.replicate (n - s.length) '0') ++ s

/-- `strftime("%Y%m")`: zero-padded four-digit year and two-digit month. -/
def formatYYYYMM (y m : Nat) : String :=
  padZeros 4 (toString y) ++ padZeros 2 (toString m)

/-- `get_periods` from `data_extraction_leyre/pipeline.py`.  `Option.none`
models the exception raised on a malformed date string. -/
def get_periods (start_date end_date : String) : Option (List String) := do
  let (ys, ms) ← parseYYYYMM start_date
  let (ye, me) ← parseYYYYMM end_date
  let start : Date := ⟨ys, ms, 1⟩
  let stop : Date := monthEndRoll ⟨ye, me, 1⟩
  return (dateRangeME start stop).map (fun d => formatYYYYMM d.year d.month)

theorem daysInMonth_pos (y m : Nat) : 1 ≤ daysInMonth y m := by
  unfold daysInMonth
  split
  · split <;> omega
  · split <;> omega

theorem parseYYYYMM_month_bounds {s : String} {y m : Nat}
    (h : parseYYYYMM s = Option.some (y, m)) : 1 ≤ m ∧ m ≤ 12 := by
  simp only [parseYYYYMM] at h
  split at h
  · split at h
    · rename_i hm
      cases h
      exact hm
    · exact absurd h (by simp)
  · exact absurd h (by simp)

/-- The candidate window of `dateRangeME`, from a day-1 start to a
month-end stop, passes the bound filter in full: the range is exactly
the month-ends of every month index from start's to stop's. -/
theorem dateRangeME_eq (ys ms ye me : Nat) (hme1 : 1 ≤ me) (hme2 : me ≤ 12)
    (hle : ys * 12 + (ms - 1) ≤ ye * 12 + (me - 1)) :
    dateRangeME ⟨ys, ms, 1⟩ ⟨ye, me, daysInMonth ye me⟩ =
      (List.range' (ys * 12 + (ms - 1))
        (ye * 12 + (me - 1) + 1 - (ys * 12 + (ms - 1)))).map monthEndOfIdx := by
  unfold dateRangeME
  apply List.filter_eq_self.mpr
  intro d hd
  rcases List.mem_map.mp hd with ⟨i, hi, rfl⟩
  have hmem := List.mem_range'_1.mp hi
  simp only [Date.midx] at hmem
  have hD : 1 ≤ daysInMonth (i / 12) (i % 12 + 1) := daysInMonth_pos _ _
  simp only [dateLE, monthEndOfIdx, Date.midx, Bool.and_eq_true, decide_eq_true_eq]
  constructor
  · omega
  · have hile : i ≤ ye * 12 + (me - 1) := by omega
    rcases Nat.lt_or_eq_of_le hile with hlt | heq
    · left
      omega
    · right
      have h1 : i / 12 = ye := by omega
      have h2 : i % 12 + 1 = me := by omega
      rw [h1, h2]
      omega

/-- C1.  Period expansion: whenever both bounds parse as year-months and
the start month is not after the end month, `get_periods` returns the
YYYYMM string of every month index from start to end, in order, the end
month included; and the two concrete examples from the spec hold. -/
theorem get_periods_spec (sd ed : String) (ys ms ye me : Nat)
    (hs : parseYYYYMM sd = Option.some (ys, ms))
    (he : parseYYYYMM ed = Option.some (ye, me))
    (hle : ys * 12 + (ms - 1) ≤ ye * 12 + (me - 1)) :
    (get_periods sd ed =
        Option.some ((List.range' (ys * 12 + (ms - 1))
            (ye * 12 + (me - 1) + 1 - (ys * 12 + (ms - 1)))).map
          (fun i => formatYYYYMM (i / 12) (i % 12 + 1)))
      ∧ formatYYYYMM ye me ∈ (get_periods sd ed).getD [])
    ∧ get_periods "202301" "202303" = Option.some ["202301", "202302", "202303"]
    ∧ get_periods "202301" "202301" = Option.some ["202301"] := by
  obtain ⟨hme1, hme2⟩ := parseYYYYMM_month_bounds he
  have hmain : get_periods sd ed =
      Option.some ((List.range' (ys * 12 + (ms - 1))
          (ye * 12 + (me - 1) + 1 - (ys * 12 + (ms - 1)))).map
        (fun i => formatYYYYMM (i / 12) (i % 12 + 1))) := by
    unfold get_periods
    rw [hs, he]
    simp only [Option.bind_eq_bind, Option.some_bind, monthEndRoll]
    rw [dateRangeME_eq ys ms ye me hme1 hme2 hle]
    rw [List.map_map]
    rfl
  refine ⟨⟨hmain, ?_⟩, by decide, by decide⟩
  rw [hmain]
  simp only [Option.getD_some]
  apply List.mem_map.mpr
  refine ⟨ye * 12 + (me - 1), ?_, ?_⟩
  · apply List.mem_range'_1.mpr
    omega
  · have h1 : (ye * 12 + (me - 1)) / 12 = ye := by omega
    have h2 : (ye * 12 + (me - 1)) % 12 + 1 = me := by omega
    rw [h1, h2]

/-- C8.  Period expansion on an inverted range: when the start month is
strictly after the end month, `get_periods` returns the empty list (no
exception). -/
theorem get_periods_inverted (sd ed : String) (ys ms ye me : Nat)
    (hs : parseYYYYMM sd = Option.some (ys, ms))
    (he : parseYYYYMM ed = Option.some (ye, me))
    (hgt : ye * 12 + (me - 1) < ys * 12 + (ms - 1)) :
    get_periods sd ed = Option.some [] := by
  unfold get_periods
  rw [hs, he]
  simp only [Option.bind_eq_bind, Option.some_bind, monthEndRoll]
  unfold dateRangeME
  have h0 : (Date.mk ye me (daysInMonth ye me)).midx + 1 - (Date.mk ys ms 1).midx = 0 := by
    simp only [Date.midx]
    omega
  rw [h0]
  rfl

/-- Witness for C1 at the spec's concrete inputs. -/
theorem get_periods_spec_witness :
    (get_periods "202301" "202303" =
        Option.some ((List.range' (2023 * 12 + (1 - 1))
            (2023 * 12 + (3 - 1) + 1 - (2023 * 12 + (1 - 1)))).map
          (fun i => formatYYYYMM (i / 12) (i % 12 + 1)))
      ∧ formatYYYYMM 2023 3 ∈ (get_periods "202301" "202303").getD [])
    ∧ get_periods "202301" "202303" = Option.some ["202301", "202302", "202303"]
    ∧ get_periods "202301" "202301" = Option.some ["202301"] :=
  get_periods_spec "202301" "202303" 2023 1 2023 3 (by decide) (by decide) (by decide)

/-- Witness for C8 at a concrete inverted range. -/
theorem get_periods_inverted_witness :
    get_periods "202303" "202301" = Option.some [] :=
  get_periods_inverted "202303" "202301" 2023 3 2023 1 (by decide) (by decide)
    (by decide)

/-! ## rita_iaso_exercise: authenticator -/

/-- An HTTP response as `requests` hands it back: a status code and the
parsed JSON object body. -/
structure HttpResponse where
  status : Nat
  body : Record
  deriving DecidableEq, Repr

/-- `Response.raise_for_status()` raises exactly for 4xx and 5xx codes. -/
def httpError (status : Nat) : Bool :=
  decide (400 ≤ status ∧ status < 600)

inductive AuthError where
  | httpStatus (status : Nat)
  deriving DecidableEq, Repr

/-- `retrieve_iaso_auth_headers` from `rita_iaso_exercise/pipeline.py`,
with the token-endpoint exchange passed in as `resp`.  Mirrors the
source: `r_token.raise_for_status()`, then
`token = r_token.json().get("access")` and
`{"Authorization": f"Bearer {token}"}` — the presence of the access
field is never checked, so a missing field interpolates as None. -/
def retrieve_iaso_auth_headers (resp : HttpResponse) : Except AuthError Record :=
  if httpError resp.status then
    Except.error (AuthError.httpStatus resp.status)
  else
    Except.ok [("Authorization", PyVal.str ("Bearer " ++ pyStr (recGet resp.body "access")))]

/-! ## rita_iaso_exercise: fetcher lookups -/

/-- First-match association lookup: Python `dict.get(k)`. -/
def lookup {α : Type} (tbl : List (String × α)) (k : String) : Option α :=
  (tbl.find? (fun p => p.1 == k)).map Prod.snd

def country_to_org_unit_parent_id_local : List (String × Nat) := [
  ("Algeria", 29688), ("Angola", 29679), ("Benin", 29681), ("Botswana", 29683),
  ("Burkina Faso", 29682), ("Burundi", 29680), ("Cabo Verde", 29687), ("Cameroon", 29685),
  ("Central African Republic", 29684), ("Chad", 29720), ("Comoros", 29686), ("Congo", 29728),
  ("Côte d’Ivoire", 29729), ("Democratic Republic of the Congo", 29727),
  ("Equatorial Guinea", 29697), ("Eritrea", 29689), ("Eswatini", 29718), ("Ethiopia", 29691),
  ("Gabon", 29692), ("Gambia", 29695), ("Ghana", 29693), ("Guinea", 29694),
  ("Guinea-Bissau", 29696), ("Kenya", 29698), ("Lesotho", 29700), ("Liberia", 29699),
  ("Madagascar", 29701), ("Malawi", 29706), ("Mali", 29702), ("Mauritania", 29704),
  ("Mauritius", 29705), ("Mozambique", 29703), ("Namibia", 29708), ("Niger", 29709),
  ("Nigeria", 29710), ("Rwanda", 29712), ("Sao Tome and Principe", 29717),
  ("Senegal", 29713), ("Seychelles", 29719), ("Sierra Leone", 29715),
  ("South Africa", 29724), ("South Sudan", 29716), ("Togo", 29721), ("Uganda", 29723),
  ("United Republic of Tanzania", 29722), ("Zambia", 29725), ("Zimbabwe", 29726)]

def level_to_org_unit_type_id : List (String × String) := [
  ("FOSAs", "8"), ("Districts", "7"), ("Regions", "6"), ("Country", "5")]

/-- Python `str(x)` on a `dict.get` result of string type. -/
def pyOptStr : Option String → String
  | Option.some s => s
  | Option.none => "None"

/-- Python `str(x)` on a `dict.get` result of integer type. -/
def pyOptNatStr : Option Nat → String
  | Option.some n => toString n
  | Option.none => "None"

inductive ConfigurationError where
  | unknownKey (k : String)
  deriving DecidableEq, Repr

/-- An outbound HTTP GET request. -/
structure HttpRequest where
  endpoint : String
  headers : Record
  deriving DecidableEq, Repr

def orgunits_url_head : String :=
  "https://www.poliooutbreaks.com/api/orgunits/?source_id=2&validation_status=all&orgUnitTypeId="

/-- The request-building prefix of `fetch_org_units_data` from
`rita_iaso_exercise/pipeline.py`: both lookups use `.get` (no raise on a
missing key) and the endpoint f-string is built from the results, after
which the GET is issued unconditionally.  The `Except ConfigurationError`
result leaves room for the fail-fast behavior the spec demands; the
source never takes the error branch. -/
def fetch_org_units_data (headers : Record) (level_param country_name : String) :
    Except ConfigurationError HttpRequest :=
  let org_unit_type_id := lookup level_to_org_unit_type_id level_param
  let org_unit_parent_id := lookup country_to_org_unit_parent_id_local country_name
  Except.ok
    ⟨orgunits_url_head ++ pyOptStr org_unit_type_id ++ "&orgUnitParentId="
        ++ pyOptNatStr org_unit_parent_id,
      headers⟩

/-- C2 counterexample: "Atlantis" is not a key of the country table, yet
`fetch_org_units_data` does not raise a ConfigurationError — it issues
the GET with the literal text None as the `orgUnitParentId` value. -/
theorem fetch_unknown_country_counterexample :
    lookup country_to_org_unit_parent_id_local "Atlantis" = Option.none
    ∧ fetch_org_units_data [] "Regions" "Atlantis" =
        Except.ok
          ⟨"https://www.poliooutbreaks.com/api/orgunits/?source_id=2&validation_status=all&orgUnitTypeId=6&orgUnitParentId=None",
            []⟩ := by
  constructor
  · rfl
  · rfl

/-- C2 (amended).  Lookup resolution never fails fast: for every level
and country the fetch issues a request (no ConfigurationError), and an
unknown level or country name interpolates as the literal text None in
the corresponding query parameter. -/
theorem fetch_org_units_no_config_error (headers : Record) (level country : String) :
    (∃ req, fetch_org_units_data headers level country = Except.ok req)
    ∧ (lookup level_to_org_unit_type_id level = Option.none →
        fetch_org_units_data headers level country =
          Except.ok
            ⟨orgunits_url_head ++ "None" ++ "&orgUnitParentId="
                ++ pyOptNatStr (lookup country_to_org_unit_parent_id_local country),
              headers⟩)
    ∧ (lookup country_to_org_unit_parent_id_local country = Option.none →
        fetch_org_units_data headers level country =
          Except.ok
            ⟨orgunits_url_head ++ pyOptStr (lookup level_to_org_unit_type_id level)
                ++ "&orgUnitParentId=None",
              headers⟩) := by
  refine ⟨⟨_, rfl⟩, ?_, ?_⟩
  · intro h
    simp only [fetch_org_units_data, h, pyOptStr]
  · intro h
    simp only [fetch_org_units_data, h, pyOptNatStr]
    rw [String.append_assoc]
    rfl

/-- Witness for C2 (amended) at level "Regions", country "Atlantis". -/
theorem fetch_org_units_no_config_error_witness :
    lookup country_to_org_unit_parent_id_local "Atlantis" = Option.none
    ∧ fetch_org_units_data [] "Regions" "Atlantis" =
        Except.ok
          ⟨orgunits_url_head ++ pyOptStr (lookup level_to_org_unit_type_id "Regions")
              ++ "&orgUnitParentId=None",
            []⟩ :=
  ⟨by rfl, (fetch_org_units_no_config_error [] "Regions" "Atlantis").2.2 (by rfl)⟩

/-- C4 counterexample: a success-status token response whose body has no
access field does not fail — the authenticator returns headers with the
literal token None. -/
theorem auth_missing_access_counterexample :
    httpError 200 = false
    ∧ recGet ([] : Record) "access" = PyVal.none
    ∧ retrieve_iaso_auth_headers ⟨200, []⟩ =
        Except.ok [("Authorization", PyVal.str "Bearer None")] := by
  refine ⟨rfl, rfl, rfl⟩

/-- C4 (amended).  The authenticator fails with an AuthError exactly
when the exchange HTTP status is an error status; a success response
missing the access field does not fail and yields Bearer None headers. -/
theorem retrieve_iaso_auth_headers_spec (resp : HttpResponse) :
    ((∃ e, retrieve_iaso_auth_headers resp = Except.error e) ↔ httpError resp.status = true)
    ∧ (httpError resp.status = false → recGet resp.body "access" = PyVal.none →
        retrieve_iaso_auth_headers resp =
          Except.ok [("Authorization", PyVal.str "Bearer None")]) := by
  constructor
  · constructor
    · rintro ⟨e, he⟩
      by_contra hstatus
      simp only [Bool.not_eq_true] at hstatus
      simp only [retrieve_iaso_auth_headers, hstatus, Bool.false_eq_true, if_false] at he
      cases he
    · intro hstatus
      exact ⟨AuthError.httpStatus resp.status,
        by simp only [retrieve_iaso_auth_headers, hstatus, if_true]⟩
  · intro hstatus hmissing
    simp only [retrieve_iaso_auth_headers, hstatus, Bool.false_eq_true, if_false, hmissing,
      pyStr]
    rfl

/-- Witness for C4 (amended) at a 200-status response with empty body. -/
theorem retrieve_iaso_auth_headers_spec_witness :
    ((∃ e, retrieve_iaso_auth_headers ⟨200, []⟩ = Except.error e) ↔ httpError 200 = true)
    ∧ retrieve_iaso_auth_headers ⟨200, []⟩ =
        Except.ok [("Authorization", PyVal.str "Bearer None")] :=
  ⟨(retrieve_iaso_auth_headers_spec ⟨200, []⟩).1,
    (retrieve_iaso_auth_headers_spec ⟨200, []⟩).2 (by rfl) (by rfl)⟩

/-! ## rita_iaso_exercise: transformer -/

def rita_output_columns : List String := [
  "name", "id", "parent_id", "org_unit_type_id", "org_unit_type_name",
  "validation_status", "created_at", "updated_at", "latitude",
  "longitude", "altitude", "aliases"]

/-- One appended row of `transform_org_units_to_dataframe`: the literal
twelve `unit_data.get(...)` cells of the source, in source order. -/
def rita_row (unit_data : Record) : List PyVal := [
  recGet unit_data "name",
  recGet unit_data "id",
  recGet unit_data "parent_id",
  recGet unit_data "org_unit_type_id",
  recGet unit_data "org_unit_type_name",
  recGet unit_data "validation_status",
  recGet unit_data "created_at",
  recGet unit_data "updated_at",
  recGet unit_data "latitude",
  recGet unit_data "longitude",
  recGet unit_data "altitude",
  recGet unit_data "aliases"]

/-- `transform_org_units_to_dataframe` from
`rita_iaso_exercise/pipeline.py`: start from an empty dataframe with the
fixed columns; when the input list is truthy, append one row per record
(`processed_df.loc[processed_df.shape[0]] = [...]`). -/
def transform_org_units_to_dataframe (org_units_list : List Record) : DataFrame :=
  let processed_df : DataFrame := ⟨rita_output_columns, []⟩
  if org_units_list.isEmpty then processed_df
  else
    org_units_list.foldl
      (fun df unit_data => ⟨df.columns, df.rows ++ [rita_row unit_data]⟩)
      processed_df

/-! ## data_extraction_leyre: transformer (`format_elements`, `format_df`) -/

/-- Column union in order of first appearance, as `pd.concat` aligns
columns. -/
def listUnion (l1 l2 : List String) : List String :=
  l1 ++ l2.filter (fun c => !(l1.contains c))

/-- The cell of a row at a named column, given the row's own column
list; a column the row does not have is NaN (`PyVal.none`). -/
def alignCell (srcCols : List String) (row : List PyVal) (c : String) : PyVal :=
  match srcCols.findIdx? (fun c2 => c2 == c) with
  | Option.some i => row.getD i PyVal.none
  | Option.none => PyVal.none

/-- `pd.concat(list_df, ignore_index=True)`: raises ValueError on an
empty list of frames; otherwise aligns every row to the union of the
column lists. -/
def pd_concat (dfs : List DataFrame) : Except String DataFrame :=
  match dfs with
  | [] => Except.error "No objects to concatenate"
  | _ =>
    let cols := dfs.foldl (fun acc df => listUnion acc df.columns) []
    Except.ok
      ⟨cols,
        (dfs.map (fun df =>
          df.rows.map (fun r => cols.map (fun c => alignCell df.columns r c)))).flatten⟩

/-- `pd.DataFrame([element])`: a one-row frame whose columns are the
dict's keys in insertion order. -/
def dfOfRecord (element : Record) : DataFrame :=
  ⟨element.map Prod.fst, [element.map Prod.snd]⟩

/-- `format_elements` from `data_extraction_leyre/pipeline.py`: one-row
frames concatenated with `pd.concat`. -/
def format_elements (elements : List Record) : Except String DataFrame :=
  pd_concat (elements.map dfOfRecord)

def dict_rename : List (String × String) := [
  ("dx", "dataElement"), ("ou", "orgUnit"), ("pe", "period"), ("value", "value"),
  ("ou_name", "orgUnitName"), ("dx_name", "dataElementName"),
  ("co_name", "categoryOptionComboName"), ("co", "CategoryOption")]

def list_output : List String := [
  "dataElement", "dataElementName", "CategoryOption", "categoryOptionComboName",
  "orgUnit", "orgUnitName", "period", "value"]

/-- `df.rename(columns=dict_rename)`: map each column name through the
dict, leaving unknown names unchanged. -/
def df_rename (df : DataFrame) (ren : List (String × String)) : DataFrame :=
  ⟨df.columns.map (fun c =>
      match lookup ren c with
      | Option.some n => n
      | Option.none => c),
    df.rows⟩

/-- `df[cols]`: project to the named columns in the given order; a
KeyError when one of them is missing. -/
def df_select (df : DataFrame) (cols : List String) : Except String DataFrame :=
  if cols.all (fun c => df.columns.contains c) then
    Except.ok ⟨cols, df.rows.map (fun r => cols.map (fun c => alignCell df.columns r c))⟩
  else
    Except.error "KeyError"

/-- Modelled from the spec: `dhis2.meta.add_org_unit_name_column` /
`add_dx_name_column` / `add_coc_name_column` of the openhexa DHIS2
toolbox are not part of this repository; per the spec's Transformer
contract they "attach display names for coded fields ... via metadata
lookups", i.e. append one name column computed from the corresponding
code column.  The metadata lookup itself is the `resolve` argument. -/
def add_name_column (df : DataFrame) (codeCol nameCol : String)
    (resolve : PyVal → PyVal) : DataFrame :=
  ⟨df.columns ++ [nameCol],
    df.rows.map (fun r => r ++ [resolve (alignCell df.columns r codeCol)])⟩

/-- `get_metadata_info` from `data_extraction_leyre/pipeline.py`: the
three name columns added in source order (ou, dx, coc). -/
def get_metadata_info (resolveOu resolveDx resolveCoc : PyVal → PyVal)
    (df : DataFrame) : DataFrame :=
  add_name_column
    (add_name_column (add_name_column df "ou" "ou_name" resolveOu) "dx" "dx_name" resolveDx)
    "co" "co_name" resolveCoc

/-- `format_df` from `data_extraction_leyre/pipeline.py`: metadata
names, rename to the external schema, then project to `list_output`. -/
def format_df (resolveOu resolveDx resolveCoc : PyVal → PyVal)
    (df : DataFrame) : Except String DataFrame :=
  df_select (df_rename (get_metadata_info resolveOu resolveDx resolveCoc df) dict_rename)
    list_output

theorem transform_foldl (l : List Record) (cols : List String) (acc : List (List PyVal)) :
    l.foldl (fun (df : DataFrame) unit_data => ⟨df.columns, df.rows ++ [rita_row unit_data]⟩)
      ⟨cols, acc⟩ =
      ⟨cols, acc ++ l.map rita_row⟩ := by
  induction l generalizing acc with
  | nil => simp
  | cons u rest ih => simp [ih, List.append_assoc]

/-- `transform_org_units_to_dataframe` in closed form: the fixed columns
and one `rita_row` per input record (also when the truthiness guard
skips the loop). -/
theorem transform_eq (l : List Record) :
    transform_org_units_to_dataframe l = ⟨rita_output_columns, l.map rita_row⟩ := by
  simp only [transform_org_units_to_dataframe]
  by_cases h : l.isEmpty
  · rw [if_pos h, List.isEmpty_iff.mp h]
    rfl
  · rw [if_neg h, transform_foldl]
    rfl

/-- C9.  Row preservation: the rita transformer emits exactly one row
per input record, in input order, each cell being the `get` of the
correspondingly named field of that record; and `get` of an absent
field is null. -/
theorem transform_row_preservation (org_units_list : List Record) :
    (transform_org_units_to_dataframe org_units_list).rows =
      org_units_list.map (fun u => rita_output_columns.map (fun c => recGet u c))
    ∧ ∀ (u : Record) (c : String), u.find? (fun p => p.1 == c) = Option.none →
        recGet u c = PyVal.none := by
  constructor
  · rw [transform_eq]
    rfl
  · intro u c h
    simp [recGet, h]

/-- Witness for C9 at a one-record input with an absent id field. -/
theorem transform_row_preservation_witness :
    (transform_org_units_to_dataframe [[("name", PyVal.str "A")]]).rows =
      [[("name", PyVal.str "A")]].map
        (fun u => rita_output_columns.map (fun c => recGet u c))
    ∧ recGet ([("name", PyVal.str "A")] : Record) "id" = PyVal.none :=
  ⟨(transform_row_preservation [[("name", PyVal.str "A")]]).1,
    (transform_row_preservation [[("name", PyVal.str "A")]]).2
      [("name", PyVal.str "A")] "id" (by decide)⟩

/-- C3 (amended).  Empty input: the rita transformer returns an empty
dataframe still carrying the fixed schema header, without error, while
leyre's `format_elements` raises (`pd.concat` of no objects). -/
theorem transformer_empty_input :
    transform_org_units_to_dataframe [] = ⟨rita_output_columns, []⟩
    ∧ ∃ msg, format_elements [] = Except.error msg :=
  ⟨rfl, ⟨"No objects to concatenate", rfl⟩⟩

/-- C3 counterexample: leyre's transformer stage raises on the empty
input sequence instead of returning an empty result. -/
theorem format_elements_empty_raises :
    format_elements [] = Except.error "No objects to concatenate" := rfl

/-- C5.  Schema invariant: for non-empty input the rita transformer's
output has exactly the fixed columns and every row has a cell for each
of them; whenever leyre's `format_df` succeeds, its output has exactly
the `list_output` columns, every row full-width. -/
theorem transformer_schema_invariant :
    (∀ org_units_list : List Record, org_units_list ≠ [] →
      (transform_org_units_to_dataframe org_units_list).columns = rita_output_columns
      ∧ ∀ r ∈ (transform_org_units_to_dataframe org_units_list).rows,
          r.length = rita_output_columns.length)
    ∧ (∀ (resolveOu resolveDx resolveCoc : PyVal → PyVal) (df out : DataFrame),
        format_df resolveOu resolveDx resolveCoc df = Except.ok out →
        out.columns = list_output
        ∧ ∀ r ∈ out.rows, r.length = list_output.length) := by
  constructor
  · intro l _
    rw [transform_eq]
    refine ⟨rfl, ?_⟩
    intro r hr
    rcases List.mem_map.mp hr with ⟨u, _, rfl⟩
    rfl
  · intro resolveOu resolveDx resolveCoc df out h
    simp only [format_df, df_select] at h
    split at h
    · cases h
      refine ⟨rfl, ?_⟩
      intro r hr
      rcases List.mem_map.mp hr with ⟨r0, _, rfl⟩
      exact List.length_map _ _
    · cases h

/-- Witness for C5: a one-record rita input and a concrete analytics
frame on which `format_df` succeeds. -/
theorem transformer_schema_invariant_witness :
    ((transform_org_units_to_dataframe [[("name", PyVal.str "A")]]).columns =
        rita_output_columns
      ∧ ∀ r ∈ (transform_org_units_to_dataframe [[("name", PyVal.str "A")]]).rows,
          r.length = rita_output_columns.length)
    ∧ ((⟨list_output,
          [[PyVal.str "d1", PyVal.str "d1", PyVal.str "c1", PyVal.str "c1",
            PyVal.str "o1", PyVal.str "o1", PyVal.str "202301", PyVal.int 5]]⟩ :
            DataFrame).columns = list_output
      ∧ ∀ r ∈ (⟨list_output,
          [[PyVal.str "d1", PyVal.str "d1", PyVal.str "c1", PyVal.str "c1",
            PyVal.str "o1", PyVal.str "o1", PyVal.str "202301", PyVal.int 5]]⟩ :
            DataFrame).rows, r.length = list_output.length) :=
  ⟨transformer_schema_invariant.1 [[("name", PyVal.str "A")]] (by simp),
    transformer_schema_invariant.2 (fun v => v) (fun v => v) (fun v => v)
      ⟨["dx", "co", "ou", "pe", "value"],
        [[PyVal.str "d1", PyVal.str "c1", PyVal.str "o1", PyVal.str "202301", PyVal.int 5]]⟩
      _ rfl⟩

/-! ## data_extraction_lionel: disease-name filter -/

/-- Is `pat` a contiguous run inside `s`? -/
def containsRun (pat : List Char) : List Char → Bool
  | [] => pat.isEmpty
  | c :: rest => pat.isPrefixOf (c :: rest) || containsRun pat rest

/-- `pl.col("name").str.contains("(?i)mpox|cholera|covid")`: the regex
is an alternation of three plain words under case-insensitivity, i.e.
the lowercased name contains one of the three words. -/
def disease_name_match (name : String) : Bool :=
  containsRun "mpox".data (name.data.map Char.toLower)
  || containsRun "cholera".data (name.data.map Char.toLower)
  || containsRun "covid".data (name.data.map Char.toLower)

/-- The disease-name filter of `retrieve_relevant_data_element_ids` in
`data_extraction_lionel/pipeline.py`: keep the rows of the
data-elements frame whose name matches the pattern set. -/
def disease_name_filter (rows : List Record) : List Record :=
  rows.filter (fun r => disease_name_match (pyStr (recGet r "name")))

/-- `retrieve_relevant_data_element_ids`: the id column of the filtered
data-elements frame. -/
def retrieve_relevant_data_element_ids (df : List Record) : List PyVal :=
  (disease_name_filter df).map (fun r => recGet r "id")

/-- C6.  Filter idempotence: applying the disease-name filter twice is
the same as applying it once, and re-filtering does not change the
extracted id list. -/
theorem disease_filter_idempotent (rows : List Record) :
    disease_name_filter (disease_name_filter rows) = disease_name_filter rows
    ∧ retrieve_relevant_data_element_ids (disease_name_filter rows) =
        retrieve_relevant_data_element_ids rows := by
  have h : disease_name_filter (disease_name_filter rows) = disease_name_filter rows := by
    simp [disease_name_filter, List.filter_filter]
  exact ⟨h, by simp only [retrieve_relevant_data_element_ids, h]⟩

/-! ## rita_iaso_exercise: file naming and exporter -/

def spaceChar : Char := Char.ofNat 32

def asciiApostrophe : Char := Char.ofNat 39

def rightSingleQuote : Char := Char.ofNat 8217

/-- Python `s.replace(pat, rep)` for a one-character pattern (the only
form the pipeline body uses). -/
def pyReplaceChar (s : String) (pat : Char) (rep : String) : String :=
  String.join (s.data.map (fun c => if c = pat then rep else String.singleton c))

/-- The file name the `rita_iaso_exercise` pipeline body computes:
`country.replace(" ", "_").replace("'", "").replace("’", "")` followed
by `_<level>.csv`. -/
def rita_file_name (country level : String) : String :=
  let safe_country_name :=
    pyReplaceChar (pyReplaceChar (pyReplaceChar country spaceChar "_") asciiApostrophe "")
      rightSingleQuote ""
  safe_country_name ++ "_" ++ level ++ ".csv"

/-- The `choices` list of the country parameter of `rita_iaso_exercise`. -/
def countryChoices : List String := [
  "Algeria", "Angola", "Benin", "Botswana", "Burkina Faso", "Burundi", "Cabo Verde",
  "Cameroon", "Central African Republic", "Chad", "Comoros", "Congo", "Côte d’Ivoire",
  "Democratic Republic of the Congo", "Equatorial Guinea", "Eritrea", "Eswatini",
  "Ethiopia", "Gabon", "Gambia", "Ghana", "Guinea", "Guinea-Bissau", "Kenya",
  "Lesotho", "Liberia", "Madagascar", "Malawi", "Mali", "Mauritania", "Mauritius",
  "Mozambique", "Namibia", "Niger", "Nigeria", "Rwanda", "Sao Tome and Principe",
  "Senegal", "Seychelles", "Sierra Leone", "South Africa", "South Sudan", "Togo",
  "Uganda", "United Republic of Tanzania", "Zambia", "Zimbabwe"]

/-- The `choices` list of the level parameter of `rita_iaso_exercise`. -/
def levelChoices : List String := ["Country", "Regions", "Districts", "FOSAs"]

/-- The known filesystem state: directories that exist and files with
their lines. -/
structure FileSys where
  dirs : List String
  files : List (String × List String)
  deriving DecidableEq, Repr

/-- `os.path.join` for a relative second component. -/
def joinPath (a b : String) : String := a ++ "/" ++ b

/-- `os.makedirs(d, exist_ok=True)`. -/
def makedirs (fs : FileSys) (d : String) : FileSys :=
  if fs.dirs.contains d then fs else ⟨fs.dirs ++ [d], fs.files⟩

/-- A dataframe cell rendered to CSV text: NaN/None becomes empty. -/
def csvCell : PyVal → String
  | PyVal.str s => s
  | PyVal.int n => toString n
  | PyVal.none => ""

/-- `DataFrame.to_csv`, as lines: a header of the columns then one line
per row; with `index=True` a synthetic row-count column is prepended,
with `index=False` it is not. -/
def to_csv_lines (df : DataFrame) (index : Bool) : List String :=
  String.intercalate "," ((if index then [""] else []) ++ df.columns)
    :: (if index then
          df.rows.enum.map (fun p => String.intercalate "," (toString p.1 :: p.2.map csvCell))
        else
          df.rows.map (fun r => String.intercalate "," (r.map csvCell)))

/-- Replace or create the file at `path`. -/
def writeFileLines (fs : FileSys) (path : String) (lines : List String) : FileSys :=
  ⟨fs.dirs, fs.files.filter (fun p => !(p.1 == path)) ++ [(path, lines)]⟩

/-- `export_dataframe_to_csv` from `rita_iaso_exercise/pipeline.py`:
join the workspace path with the directory, `os.makedirs(...,
exist_ok=True)`, join the file name, `to_csv(full_path, index=False)`,
and return the full path. -/
def export_dataframe_to_csv (files_path : String) (fs : FileSys)
    (dataframe : DataFrame) (file_name directory_name : String) : FileSys × String :=
  let target_directory := joinPath files_path directory_name
  let fs1 := makedirs fs target_directory
  let full_path := joinPath target_directory file_name
  (writeFileLines fs1 full_path (to_csv_lines dataframe false), full_path)

/-- The `rita_iaso_exercise` pipeline body with the authenticator and
fetcher replaced by a given raw org-unit list (the spec's mocked
Fetcher): transform, compute the sanitized file name, export into the
`rita_iaso_exercise` directory. -/
def rita_iaso_exercise_mocked (files_path : String) (fs : FileSys)
    (org_units_raw_list : List Record) (country level : String) : FileSys × String :=
  let processed_df := transform_org_units_to_dataframe org_units_raw_list
  let file_name := rita_file_name country level
  export_dataframe_to_csv files_path fs processed_df file_name "rita_iaso_exercise"

/-- The spec's mocked Fetcher payload: two raw org-unit records with
`parent_id` 29688 (Algeria) and `org_unit_type_id` 6 (Regions). -/
def algeria_regions_raw : List Record := [
  [("name", PyVal.str "Adrar"), ("id", PyVal.int 1001), ("parent_id", PyVal.int 29688),
    ("org_unit_type_id", PyVal.int 6)],
  [("name", PyVal.str "Alger"), ("id", PyVal.int 1002), ("parent_id", PyVal.int 29688),
    ("org_unit_type_id", PyVal.int 6)]]

/-- C7.  End-to-end export: from the two mocked Algeria/Regions raw
records, the pipeline writes `Algeria_Regions.csv` under the
`rita_iaso_exercise` directory of the workspace (creating that
directory, which the initial filesystem lacks), and the file holds the
12-column header line plus exactly the two data rows, with no synthetic
row-count index column. -/
theorem rita_end_to_end (files_path : String) :
    (rita_iaso_exercise_mocked files_path ⟨[], []⟩ algeria_regions_raw "Algeria" "Regions").2
        = files_path ++ "/rita_iaso_exercise/Algeria_Regions.csv"
    ∧ (rita_iaso_exercise_mocked files_path ⟨[], []⟩ algeria_regions_raw "Algeria"
        "Regions").1.dirs = [files_path ++ "/rita_iaso_exercise"]
    ∧ (rita_iaso_exercise_mocked files_path ⟨[], []⟩ algeria_regions_raw "Algeria"
        "Regions").1.files =
        [(files_path ++ "/rita_iaso_exercise/Algeria_Regions.csv",
          ["name,id,parent_id,org_unit_type_id,org_unit_type_name,validation_status,created_at,updated_at,latitude,longitude,altitude,aliases",
            "Adrar,1001,29688,6,,,,,,,,",
            "Alger,1002,29688,6,,,,,,,,"])] := by
  have hdir : joinPath files_path "rita_iaso_exercise" =
      files_path ++ "/rita_iaso_exercise" := by
    simp only [joinPath, String.append_assoc]
    rfl
  have hfile : joinPath (joinPath files_path "rita_iaso_exercise") "Algeria_Regions.csv" =
      files_path ++ "/rita_iaso_exercise/Algeria_Regions.csv" := by
    simp only [joinPath, String.append_assoc]
    rfl
  have step : rita_iaso_exercise_mocked files_path ⟨[], []⟩ algeria_regions_raw "Algeria"
      "Regions" =
      (⟨[joinPath files_path "rita_iaso_exercise"],
        [(joinPath (joinPath files_path "rita_iaso_exercise") "Algeria_Regions.csv",
          ["name,id,parent_id,org_unit_type_id,org_unit_type_name,validation_status,created_at,updated_at,latitude,longitude,altitude,aliases",
            "Adrar,1001,29688,6,,,,,,,,",
            "Alger,1002,29688,6,,,,,,,,"])]⟩,
        joinPath (joinPath files_path "rita_iaso_exercise") "Algeria_Regions.csv") := rfl
  rw [step, hfile, hdir]
  exact ⟨rfl, rfl, rfl⟩

/-- C10 counterexample: the country parameter offers 47 choices, not
46 as the claim counts them. -/
theorem country_choices_count_counterexample :
    countryChoices.length = 47 ∧ ¬ countryChoices.length = 46 := by decide

/-- C10 (amended).  File-name sanitization: for each of the 47 allowed
country choices and every allowed level, the computed file name (spaces
to underscores, both apostrophe characters removed, then
`_<level>.csv`) contains no space and no apostrophe of either kind; on
the one choice that has both characters the sanitizer is exercised. -/
theorem rita_file_name_sanitized :
    countryChoices.length = 47
    ∧ (countryChoices.all (fun c => levelChoices.all (fun lvl =>
        (rita_file_name c lvl).data.all
          (fun ch => !(ch == spaceChar || ch == asciiApostrophe || ch == rightSingleQuote)))))
        = true
    ∧ rita_file_name "Côte d’Ivoire" "Regions" = "Côte_dIvoire_Regions.csv" := by
  refine ⟨by decide, by decide, by decide⟩

end Pipelines
